import Mathlib

/-!
Verification development for the VREG chatbot backend
(`src/backend/vreg_app.py`).

The Python source is shallowly embedded below.  Strings are modelled as
Lean `String` / `List Char` with ASCII case semantics (`Char.toLower`,
`Char.isAlpha`, ... agree with Python on the ASCII range, which is the
range exercised by the program's data and patterns).  Python `re` is
embedded by direct scanners that realise the leftmost-match /
greedy-with-backtracking semantics of the three concrete patterns the
program uses; the derivations are documented at each definition.
Fallible external collaborators (the Groq generator, the ChromaDB index
query) are modelled as `Except Unit _` parameters, and `try/except`
blocks as matches on those values.  Machine floats returned by the index
are modelled as exact rationals (`ℚ`); only their ordering and the
`1 - distance` transform matter to the program.
-/

/-- The apostrophe character, used to build string literals that contain
apostrophes (several Python literals in the source do). -/
def apoC : Char := Char.ofNat 39

/-- One-character string holding an apostrophe. -/
def apoS : String := String.mk [apoC]

/-- Python `\s` / `str.strip` whitespace on the ASCII range:
space, tab, newline, carriage return, vertical tab, form feed. -/
def isPySpace (c : Char) : Bool :=
  c = ' ' || c = '\t' || c = '\n' || c = '\r' || c = Char.ofNat 11 || c = Char.ofNat 12

/-- Python regex `\w` on the ASCII range: `[a-zA-Z0-9_]`. -/
def isWordChar (c : Char) : Bool :=
  c.isAlphanum || c = '_'

/-- Python `str.lower` (ASCII range). -/
def pyLower (s : List Char) : List Char :=
  s.map Char.toLower

/-- Python `str.strip`: drop leading and trailing whitespace. -/
def pyStrip (s : List Char) : List Char :=
  ((s.dropWhile isPySpace).reverse.dropWhile isPySpace).reverse

/-- Python `str.capitalize`: first character upper-cased, the rest lower-cased. -/
def pyCapitalize (s : List Char) : List Char :=
  match s with
  | [] => []
  | c :: cs => c.toUpper :: pyLower cs

/-- Python `str.isalpha` (ASCII range): non-empty and all alphabetic. -/
def pyIsAlphaB (s : List Char) : Bool :=
  !s.isEmpty && s.all Char.isAlpha

/-- `s[0].isupper()` for a string known to be non-empty.  (On the empty
string Python raises `IndexError`; the one call site in the source only
reaches this test when the string is non-empty, see
`extract_name_from_message`.) -/
def headIsUpper (s : List Char) : Bool :=
  match s with
  | [] => false
  | c :: _ => c.isUpper

/-- Python substring test `pat in hay` (contiguous substring). -/
def containsSub (hay pat : List Char) : Bool :=
  hay.tails.any (fun t => pat.isPrefixOf t)

/-- Python `str.replace pat rep`: replace every non-overlapping occurrence,
scanning left to right.  `fuel` bounds the recursion; every step consumes
at least one input character (the call sites use non-empty patterns), so
`fuel = s.length` suffices. -/
def pyReplace (s pat rep : List Char) : Nat → List Char
  | 0 => s
  | fuel + 1 =>
    if pat.isPrefixOf s then rep ++ pyReplace (s.drop pat.length) pat rep fuel
    else
      match s with
      | [] => []
      | c :: cs => c :: pyReplace cs pat rep fuel

/-! ## Hyperlink processor (`HyperlinkProcessor.convert_to_hyperlinks`)

The Python method applies two `re.sub` passes:

* URL pass, pattern `((?:https?://)?(?:www\.)?[a-zA-Z0-9.-]+\.[a-zA-Z]{2,}(?:/[^\s]*)?)`;
* email pass, pattern: local part `[a-zA-Z0-9._%+-]+`, then the at
  sign, then domain `[a-zA-Z0-9.-]+\.[a-zA-Z]{2,}`, capture the whole.

`re.sub` scans for the leftmost match, substitutes, and resumes scanning
in the original text right after the matched span.  The scanners below
try a match attempt at every position from the left; the per-position
matchers realise the greedy/backtracking behaviour of these concrete
patterns, as argued at each definition. -/

/-- The character class `[a-zA-Z0-9.-]` (URL body and email domain). -/
def urlBodyChar (c : Char) : Bool :=
  c.isAlphanum || c = '.' || c = '-'

/-- The character class `[a-zA-Z0-9._%+-]` (email local part). -/
def emailLocalChar (c : Char) : Bool :=
  c.isAlphanum || c = '.' || c = '_' || c = '%' || c = '+' || c = '-'

/-- Backtracking search for `[a-zA-Z0-9.-]+\.[a-zA-Z]{2,}` inside the
maximal class run `run`: the greedy `+` consumes `q` characters and
backtracks downwards, so the match uses the largest `q ≥ 1` such that
`run[q] = '.'` and at least two letters follow greedily.  (At
`q = run.length` the next character is outside the class, hence not a
dot, so only `q < run.length` can succeed.) -/
def bestSplit (run : List Char) : Option Nat :=
  (List.range run.length).reverse.find? (fun q =>
    decide (1 ≤ q) && (run.get? q == some '.') &&
      decide (2 ≤ ((run.drop (q + 1)).takeWhile Char.isAlpha).length))

/-- Match `[a-zA-Z0-9.-]+\.[a-zA-Z]{2,}(?:/[^\s]*)?` at the head of `s`,
returning the matched span and the rest.  The optional path group is
greedy; reducing the `{2,}` letters can never enable it since `/` is not
a letter, so the `{2,}` group simply takes the maximal letter run. -/
def matchUrlCore (s : List Char) : Option (List Char × List Char) :=
  let run := s.takeWhile urlBodyChar
  match bestSplit run with
  | none => none
  | some q =>
    let letters := (run.drop (q + 1)).takeWhile Char.isAlpha
    let body := run.take (q + 1) ++ letters
    let rest := s.drop body.length
    match rest with
    | '/' :: _ =>
      let path := rest.takeWhile (fun c => !isPySpace c)
      some (body ++ path, rest.drop path.length)
    | _ => some (body, rest)

/-- Match the full URL pattern at the head of `s`.  The optional scheme
group is committed when present: if `https?://` is present but the body
after it fails, retrying with the empty scheme also fails, because the
class run starting at `h` is `http`/`https`, which contains no dot.  The
optional `www.` group does need the backtracking fallback (for inputs
like `www.ab` where the dot of `www.` is the only dot). -/
def matchUrlAt (s : List Char) : Option (List Char × List Char) :=
  let scheme : List Char × List Char :=
    if ("https://".data).isPrefixOf s then ("https://".data, s.drop 8)
    else if ("http://".data).isPrefixOf s then ("http://".data, s.drop 7)
    else ([], s)
  let s1 := scheme.2
  let core :=
    if ("www.".data).isPrefixOf s1 then
      match matchUrlCore (s1.drop 4) with
      | some (m, r) => some ("www.".data ++ m, r)
      | none => matchUrlCore s1
    else matchUrlCore s1
  match core with
  | some (m, r) => some (scheme.1 ++ m, r)
  | none => none

/-- The `url_replacer` callback of `convert_to_hyperlinks`, applied to the
matched group.  Note the guard `'@' in url` and the test
`url.startswith('http')` are exactly the source's. -/
def url_replacer (url : List Char) : List Char :=
  if url.contains '@' then url
  else
    let href :=
      if ("http".data).isPrefixOf url then url
      else if containsSub url ("www.vreg.gov.ng".data) then
        pyReplace url ("www.vreg.gov.ng".data) ("https://vreg.gov.ng".data) url.length
      else if containsSub url ("www.trade.gov.ng".data) then
        pyReplace url ("www.trade.gov.ng".data) ("https://trade.gov.ng".data) url.length
      else if ("www.".data).isPrefixOf url then ("https://".data) ++ url.drop 4
      else ("https://".data) ++ url
    "<a href=\"".data ++ href ++
      "\" target=\"_blank\" rel=\"noopener noreferrer\" style=\"color: #0066cc; text-decoration: underline; font-weight: 500;\">".data ++
      url ++ "</a>".data

/-- `re.sub` with the URL pattern and `url_replacer`: leftmost match,
substitute, resume after the matched span (replacements are never
rescanned).  Every match spans at least one character, so
`fuel = s.length` suffices. -/
def subUrl : List Char → Nat → List Char
  | s, 0 => s
  | [], _ + 1 => []
  | c :: cs, fuel + 1 =>
    match matchUrlAt (c :: cs) with
    | some (m, r) => url_replacer m ++ subUrl r fuel
    | none => c :: subUrl cs fuel

/-- Match the email pattern (local part `[a-zA-Z0-9._%+-]+`, the at
sign, domain `[a-zA-Z0-9.-]+\.[a-zA-Z]{2,}`) at the head of `s`.  The greedy local-part `+` takes the maximal class
run; backtracking it cannot expose an `@` (every dropped character is a
class member), so the character right after the run must be `@`. -/
def matchEmailAt (s : List Char) : Option (List Char × List Char) :=
  let run := s.takeWhile emailLocalChar
  if run.isEmpty then none
  else
    match s.drop run.length with
    | '@' :: rest =>
      let drun := rest.takeWhile urlBodyChar
      match bestSplit drun with
      | none => none
      | some q =>
        let letters := (drun.drop (q + 1)).takeWhile Char.isAlpha
        let dom := drun.take (q + 1) ++ letters
        some (run ++ '@' :: dom, rest.drop dom.length)
    | _ => none

/-- The `email_replacer` callback: wrap the match in a `mailto:` anchor. -/
def email_replacer (email : List Char) : List Char :=
  "<a href=\"mailto:".data ++ email ++
    "\" style=\"color: #0066cc; text-decoration: underline; font-weight: 500;\">".data ++
    email ++ "</a>".data

/-- `re.sub` with the email pattern and `email_replacer`. -/
def subEmail : List Char → Nat → List Char
  | s, 0 => s
  | [], _ + 1 => []
  | c :: cs, fuel + 1 =>
    match matchEmailAt (c :: cs) with
    | some (m, r) => email_replacer m ++ subEmail r fuel
    | none => c :: subEmail cs fuel

/-- `HyperlinkProcessor.convert_to_hyperlinks`: URL pass, then email pass
on the partially transformed text. -/
def convert_to_hyperlinks (text : String) : String :=
  let r1 := subUrl text.data text.data.length
  let r2 := subEmail r1 r1.length
  String.mk r2

/-! ## Name extractor (`extract_name_from_message`)

The Python function lower-cases and strips the message, then tries, in
order, seven explicit-introduction patterns of the shape
`<literal>\s+(\w+)` (or `name:\s*(\w+)`), and finally the anchored
single-word pattern `^(\w+)$`.  For each pattern that matches, it runs
acceptance checks on the captured group; on failure it moves to the
*next pattern* (never to a later occurrence of the same pattern).

For patterns `<literal>\s+(\w+)`: at a given start position the engine
matches the literal, then takes the maximal whitespace run (backtracking
it cannot help, since a shorter run leaves a whitespace character where
`\w` is required), then captures the maximal word run.  `re.search`
tries every start position from the left. -/

/-- One match attempt of `<lit>\s+(\w+)` (or `\s*` when `plusWS` is
false) at the head of `s`; returns the captured group. -/
def tryIntroAt (lit : List Char) (plusWS : Bool) (s : List Char) : Option (List Char) :=
  if lit.isPrefixOf s then
    let rest := s.drop lit.length
    let ws := rest.takeWhile isPySpace
    if plusWS && ws.isEmpty then none
    else
      let w := (rest.drop ws.length).takeWhile isWordChar
      if w.isEmpty then none else some w
  else none

/-- `re.search` for `<lit>\s+(\w+)` / `<lit>\s*(\w+)`: leftmost start
position whose attempt succeeds. -/
def searchIntroPat (lit : List Char) (plusWS : Bool) : List Char → Option (List Char)
  | [] => tryIntroAt lit plusWS []
  | c :: cs =>
    match tryIntroAt lit plusWS (c :: cs) with
    | some w => some w
    | none => searchIntroPat lit plusWS cs

/-- `re.search` for the anchored pattern `^(\w+)$`: the whole string is a
non-empty word-character run. -/
def fullWordMatch (s : List Char) : Option (List Char) :=
  if !s.isEmpty && s.all isWordChar then some s else none

/-- The `non_names` stop-list of `extract_name_from_message`. -/
def non_names : List String :=
  ["hi", "hello", "hey", "good", "morning", "afternoon", "evening",
   "yes", "no", "ok", "okay", "sure", "please", "help", "thanks", "thank",
   "what", "how", "when", "where", "why", "who", "which",
   "vreg", "registration", "vehicle", "portal", "login", "password",
   "payment", "certificate", "support", "problem", "issue", "error",
   "can", "will", "should", "could", "would", "need", "want", "like",
   "get", "have", "make", "take", "give", "find", "know", "think",
   "see", "look", "check", "try", "use", "work", "go", "come"]

/-- Literal part of the pattern `i'm\s+(\w+)`. -/
def litIm : List Char := ['i', apoC, 'm']

/-- Literal part of the pattern `it's\s+(\w+)`. -/
def litIts : List Char := ['i', 't', apoC, 's']

/-- One explicit-introduction pattern attempt with the less strict checks
of the source's `else` arm: captured group of length at least 2 and its
lower-casing not in `non_names`.  (The group is a `\w+` token, so the
source's `.strip()` on it is the identity.) -/
def tryExplicit (lit : List Char) (plusWS : Bool) (ml : List Char) : Option String :=
  match searchIntroPat lit plusWS ml with
  | none => none
  | some w =>
    if decide (2 ≤ w.length) && !(non_names.contains (String.mk (pyLower w))) then
      some (String.mk (pyCapitalize w))
    else none

/-- The single-word pattern attempt with the strict checks: length at
least 2, lower-casing not in `non_names`, the stripped *original*
message starts with an upper-case letter, and is entirely alphabetic. -/
def trySingle (message : String) (ml : List Char) : Option String :=
  match fullWordMatch ml with
  | none => none
  | some w =>
    if decide (2 ≤ w.length) && !(non_names.contains (String.mk (pyLower w))) &&
        headIsUpper (pyStrip message.data) && pyIsAlphaB (pyStrip message.data) then
      some (String.mk (pyCapitalize w))
    else none

/-- `extract_name_from_message`: the eight patterns in source order; a
pattern whose match fails its checks falls through to the next one. -/
def extract_name_from_message (message : String) : Option String :=
  let message_lower := pyStrip (pyLower message.data)
  match tryExplicit ("my name is".data) true message_lower with
  | some r => some r
  | none =>
  match tryExplicit litIm true message_lower with
  | some r => some r
  | none =>
  match tryExplicit ("i am".data) true message_lower with
  | some r => some r
  | none =>
  match tryExplicit ("call me".data) true message_lower with
  | some r => some r
  | none =>
  match tryExplicit litIts true message_lower with
  | some r => some r
  | none =>
  match tryExplicit ("this is".data) true message_lower with
  | some r => some r
  | none =>
  match tryExplicit ("name:".data) false message_lower with
  | some r => some r
  | none => trySingle message message_lower

/-! ## FAQ retrieval (`VREGRAGSystem.retrieve_relevant_faqs`)

The ChromaDB collection is an external collaborator: its
`collection.query` call is modelled by an `Except Unit ChromaQueryResult`
argument (the query text and `n_results` are forwarded to it).  Chroma
returns one parallel triple of lists per query text; the single query's
inner lists are modelled directly.  A raised query error, and any index
error while walking the parallel lists, is absorbed by the `try/except`
and yields the empty list.  Cosine distances are modelled as exact
rationals. -/

/-- One entry of the `metadatas` list stored in the Chroma collection. -/
structure FAQMeta where
  question : String
  answer : String
  category : String
deriving Repr, DecidableEq

/-- The parallel result lists of a `collection.query` call (for the
single query text the source passes). -/
structure ChromaQueryResult where
  documents : List String
  metadatas : List FAQMeta
  distances : List ℚ
deriving Repr, DecidableEq

/-- One element of the list built by `retrieve_relevant_faqs`. -/
structure FAQResult where
  question : String
  answer : String
  answer_with_links : String
  category : String
  relevance_score : ℚ
deriving Repr, DecidableEq

/-- The loop of `retrieve_relevant_faqs`: walk `documents`, indexing the
parallel `metadatas`/`distances` lists; `none` models the `IndexError`
raised when a parallel list is too short (caught by the `except`). -/
def buildFaqs : List String → List FAQMeta → List ℚ → Option (List FAQResult)
  | [], _, _ => some []
  | _ :: ds, m :: ms, d :: qs =>
    match buildFaqs ds ms qs with
    | none => none
    | some rest =>
      some ({ question := m.question, answer := m.answer,
              answer_with_links := convert_to_hyperlinks m.answer,
              category := m.category, relevance_score := 1 - d } :: rest)
  | _ :: _, [], _ => none
  | _ :: _, _ :: _, [] => none

/-- `VREGRAGSystem.retrieve_relevant_faqs`.  `query` and `n_results` are
forwarded to the external index, whose reply (or raised error) is the
`queryRes` argument; the source's emptiness guard on
`results['documents']` is subsumed by the loop on the empty list. -/
def retrieve_relevant_faqs (query : String) (n_results : Nat)
    (queryRes : Except Unit ChromaQueryResult) : List FAQResult :=
  match query, n_results, queryRes with
  | _, _, Except.error _ => []
  | _, _, Except.ok results =>
    match buildFaqs results.documents results.metadatas results.distances with
    | none => []
    | some relevant_faqs => relevant_faqs

/-! ## RAG response (`VREGRAGSystem.generate_rag_response`)

The Groq chat-completion call is the external generator; it is modelled
by an `Except Unit String` argument (its raised error triggers the
source's `except` branch).  The system/user prompt strings only feed
that external call, so they are not re-modelled here. -/

/-- The structured record returned by `generate_rag_response`. -/
structure RagResponse where
  response : String
  response_with_links : String
  relevant_faqs : List FAQResult
  context_used : Bool
deriving Repr, DecidableEq

/-- The fixed apology text of the `except` branch of
`generate_rag_response`. -/
def errorMessage : String :=
  "I apologize, but I" ++ apoS ++
    "m having trouble processing your request right now. Please contact support@vreg.gov.ng for assistance."

/-- The numbered context block built from the retrieved FAQs (empty
string when nothing was retrieved). -/
def buildContext (faqs : List FAQResult) : String :=
  if faqs.isEmpty then ("")
  else
    "Here are some relevant FAQs from the VREG knowledge base:\n\n" ++
      String.join (faqs.enum.map (fun p =>
        toString (p.1 + 1) ++ ". Q: " ++ p.2.question ++ "\n   A: " ++ p.2.answer ++ "\n\n"))

/-- `VREGRAGSystem.generate_rag_response`: retrieve (top 3), build the
context block, call the external generator, hyperlink-normalize its
output; a raised generator error is absorbed and replaced by the fixed
apology record. -/
def generate_rag_response (user_query : String) (user_name : Option String)
    (queryRes : Except Unit ChromaQueryResult) (genRes : Except Unit String) : RagResponse :=
  let relevant_faqs := retrieve_relevant_faqs user_query 3 queryRes
  let context := buildContext relevant_faqs
  match user_name, genRes with
  | _, Except.error _ =>
    { response := errorMessage,
      response_with_links := convert_to_hyperlinks errorMessage,
      relevant_faqs := [], context_used := false }
  | _, Except.ok raw_response =>
    { response := raw_response,
      response_with_links := convert_to_hyperlinks raw_response,
      relevant_faqs := relevant_faqs, context_used := !(context == "") }

/-! ## Conversation store (`ConversationManager`)

The manager's dict is modelled as an association list keyed by the
conversation id; `time.time()` values are supplied as `Nat` arguments.
All manager methods run under the manager's lock, so each is one atomic
step. -/

/-- One conversation record. -/
structure Conversation where
  user_name : Option String
  created_at : Nat
  last_activity : Nat
deriving Repr, DecidableEq

/-- The manager's `conversations` dict. -/
def ConvStore : Type := List (String × Conversation)

/-- Dict lookup `conversations.get(conversation_id)`. -/
def storeLookup : ConvStore → String → Option Conversation
  | [], _ => none
  | (k, v) :: rest, cid => if k = cid then some v else storeLookup rest cid

/-- Dict assignment `conversations[conversation_id] = conv`. -/
def storeSet : ConvStore → String → Conversation → ConvStore
  | [], cid, v => [(cid, v)]
  | (k, w) :: rest, cid, v =>
    if k = cid then (k, v) :: rest else (k, w) :: storeSet rest cid v

/-- `ConversationManager.get_or_create_conversation`: create with a null
name on first sight, else refresh `last_activity`; returns the record. -/
def get_or_create_conversation (s : ConvStore) (conversation_id : String) (now : Nat) :
    ConvStore × Conversation :=
  match storeLookup s conversation_id with
  | none =>
    let c : Conversation := { user_name := none, created_at := now, last_activity := now }
    (storeSet s conversation_id c, c)
  | some c =>
    let c2 := { c with last_activity := now }
    (storeSet s conversation_id c2, c2)

/-- `ConversationManager.set_user_name`: no-op when the id is absent. -/
def set_user_name (s : ConvStore) (conversation_id : String) (name : String) (now : Nat) :
    ConvStore :=
  match storeLookup s conversation_id with
  | none => s
  | some c => storeSet s conversation_id { c with user_name := some name, last_activity := now }

/-- `ConversationManager.get_user_name`. -/
def get_user_name (s : ConvStore) (conversation_id : String) : Option String :=
  match storeLookup s conversation_id with
  | none => none
  | some c => c.user_name

/-! ## The `/chat` handler -/

/-- The JSON body of a `/chat` request (`request.json.get` of each key). -/
structure ChatRequest where
  message : Option String
  conversation_id : Option String
deriving Repr, DecidableEq

/-- The JSON body of a successful `/chat` reply.  Fields that appear only
in some of the source's `jsonify` dicts are `Option`s (`none` = key
absent from the dict). -/
structure ChatResponse where
  reply : String
  raw_reply : String
  relevant_faqs : List FAQResult
  context_used : Bool
  name_captured : Option Bool
  asking_for_name : Option Bool
  user_name : Option String
  conversation_id : String
deriving Repr, DecidableEq

/-- Outcome of the `/chat` handler: a JSON body, or an error body with
its HTTP status. -/
inductive ChatResult where
  | ok : ChatResponse → ChatResult
  | clientError : Nat → String → ChatResult
deriving Repr, DecidableEq

/-- Python truthiness of an optional string (`None` and `""` are falsy). -/
def pyTruthyStr : Option String → Bool
  | none => false
  | some s => !(s == "")

/-- The `greeting_words` list of the handler. -/
def greeting_words : List String :=
  ["hi", "hello", "hey", "good morning", "good afternoon", "good evening"]

/-- `any(greeting in user_input.lower() for greeting in greeting_words)`:
substring containment against the lower-cased (not stripped) message. -/
def greetingAny (user_input : String) : Bool :=
  greeting_words.any (fun g => containsSub (pyLower user_input.data) g.data)

/-- The one-time greeting emitted when a name is captured. -/
def nameGreeting (user_name : String) : String :=
  "Hello " ++ user_name ++ "! It" ++ apoS ++
    "s nice to meet you. How can I assist you today with the VREG platform? Do you have any questions, need help with vehicle registration, or perhaps you" ++
    apoS ++ "re experiencing some issues that you" ++ apoS ++ "d like me to help resolve?"

/-- The `/chat` handler.  `now` models `time.time()` for this turn;
`genRes` and `queryRes` model the external generator and index calls
made if the NAMED branch runs.  Returns the updated store and the
response. -/
def chat (store : ConvStore) (req : ChatRequest) (now : Nat)
    (genRes : Except Unit String) (queryRes : Except Unit ChromaQueryResult) :
    ConvStore × ChatResult :=
  match req.message with
  | none => (store, ChatResult.clientError 400 ("No message received"))
  | some user_input =>
    if user_input == "" then (store, ChatResult.clientError 400 ("No message received"))
    else
      let conversation_id := req.conversation_id.getD ("default")
      let gc := get_or_create_conversation store conversation_id now
      let user_name := gc.2.user_name
      if !pyTruthyStr user_name then
        let extractedOpt := extract_name_from_message user_input
        if pyTruthyStr extractedOpt then
          let extracted := extractedOpt.getD ("")
          let store2 := set_user_name gc.1 conversation_id extracted now
          let response := nameGreeting extracted
          (store2, ChatResult.ok
            { reply := convert_to_hyperlinks response, raw_reply := response,
              relevant_faqs := [], context_used := false,
              name_captured := some true, asking_for_name := none,
              user_name := none, conversation_id := conversation_id })
        else
          if greetingAny user_input then
            (gc.1, ChatResult.ok
              { reply := "Hello! May I know your name?", raw_reply := "Hello! May I know your name?",
                relevant_faqs := [], context_used := false,
                name_captured := none, asking_for_name := some true,
                user_name := none, conversation_id := conversation_id })
          else
            (gc.1, ChatResult.ok
              { reply := "May I know your name?", raw_reply := "May I know your name?",
                relevant_faqs := [], context_used := false,
                name_captured := none, asking_for_name := some true,
                user_name := none, conversation_id := conversation_id })
      else
        let rd := generate_rag_response user_input user_name queryRes genRes
        (gc.1, ChatResult.ok
          { reply := rd.response_with_links, raw_reply := rd.response,
            relevant_faqs := rd.relevant_faqs, context_used := rd.context_used,
            name_captured := none, asking_for_name := none,
            user_name := user_name, conversation_id := conversation_id })

/-- A sequence of `/chat` turns, threading the store; each turn carries
its request, its `time.time()` value, and the external collaborators'
replies for that turn. -/
def runChats (store : ConvStore) :
    List (ChatRequest × Nat × Except Unit String × Except Unit ChromaQueryResult) →
      ConvStore × List ChatResult
  | [] => (store, [])
  | (req, now, g, q) :: rest =>
    let step := chat store req now g q
    let tail := runChats step.1 rest
    (tail.1, step.2 :: tail.2)

/-! ## The remaining route handlers and the program's operation set -/

/-- Outcome of a handler modelled only for its state effect: a normal
JSON reply, or an uncaught exception (Flask then answers 500). -/
inductive HandlerOutcome where
  | responded : HandlerOutcome
  | raised : HandlerOutcome
deriving Repr, DecidableEq

/-- `/reset-session`.  Its body is `session.clear()`, but the name
`session` is undefined in the module (no `flask.session` import
exists), so the handler raises `NameError` before touching anything:
the conversation store is unchanged and no response body is produced. -/
def reset_session (store : ConvStore) : ConvStore × HandlerOutcome :=
  (store, HandlerOutcome.raised)

/-- `/get-session` likewise reads the undefined name `session` and
raises `NameError` without touching the conversation store. -/
def get_session (store : ConvStore) : ConvStore × HandlerOutcome :=
  (store, HandlerOutcome.raised)

/-- `/search`: reads only the RAG system, never the conversation store. -/
def search_faqs (query : Option String) (queryRes : Except Unit ChromaQueryResult) :
    Except (Nat × String) (List FAQResult) :=
  match query with
  | none => Except.error (400, "No query provided")
  | some q =>
    if q == "" then Except.error (400, "No query provided")
    else Except.ok (retrieve_relevant_faqs q 5 queryRes)

/-- `/process-text`: pure text transform, no conversation state. -/
def process_text (text : Option String) : Except (Nat × String) String :=
  match text with
  | none => Except.error (400, "No text provided")
  | some t =>
    if t == "" then Except.error (400, "No text provided")
    else Except.ok (convert_to_hyperlinks t)

/-- Every operation the running program can perform against its state:
the five route handlers that exist (plus `/health`, which returns static
facts).  `ConversationManager.cleanup_old_conversations` is defined in
the source but never called from any route, so it is not an operation of
the program. -/
inductive Op where
  | chatOp : ChatRequest → Nat → Except Unit String → Except Unit ChromaQueryResult → Op
  | resetSessionOp : Op
  | getSessionOp : Op
  | searchOp : Option String → Except Unit ChromaQueryResult → Op
  | healthOp : Op
  | processTextOp : Option String → Op

/-- State effect of one operation on the conversation store.  Only
`/chat` (and the always-raising session handlers) even receive the
store; `/search`, `/health` and `/process-text` never reference it. -/
def appStep (store : ConvStore) : Op → ConvStore
  | Op.chatOp req now g q => (chat store req now g q).1
  | Op.resetSessionOp => (reset_session store).1
  | Op.getSessionOp => (get_session store).1
  | Op.searchOp _ _ => store
  | Op.healthOp => store
  | Op.processTextOp _ => store

/-! ## Store lemmas -/

theorem storeLookup_set_self (s : ConvStore) (k : String) (v : Conversation) :
    storeLookup (storeSet s k v) k = some v := by
  induction s with
  | nil => simp [storeSet, storeLookup]
  | cons hd tl ih =>
    obtain ⟨k0, v0⟩ := hd
    by_cases hk : k0 = k
    · simp [storeSet, storeLookup, hk]
    · simp [storeSet, storeLookup, hk, ih]

theorem storeLookup_set_ne (s : ConvStore) (k k' : String) (v : Conversation)
    (h : k' ≠ k) : storeLookup (storeSet s k v) k' = storeLookup s k' := by
  induction s with
  | nil =>
    simp only [storeSet, storeLookup]
    rw [if_neg (fun hh => h hh.symm)]
  | cons hd tl ih =>
    obtain ⟨k0, v0⟩ := hd
    by_cases hk : k0 = k
    · subst hk
      simp only [storeSet, if_pos rfl, storeLookup]
      rw [if_neg (fun hh => h hh.symm), if_neg (fun hh => h hh.symm)]
    · simp only [storeSet, if_neg hk, storeLookup]
      by_cases hk' : k0 = k'
      · simp [hk']
      · simp [hk', ih]

theorem gc_snd_name (s : ConvStore) (cid : String) (now : Nat) :
    (get_or_create_conversation s cid now).2.user_name = get_user_name s cid := by
  unfold get_or_create_conversation get_user_name
  cases storeLookup s cid <;> rfl

theorem get_user_name_gc_self (s : ConvStore) (cid : String) (now : Nat) :
    get_user_name (get_or_create_conversation s cid now).1 cid = get_user_name s cid := by
  unfold get_or_create_conversation get_user_name
  cases h : storeLookup s cid <;> simp [storeLookup_set_self, h]

theorem get_user_name_gc_ne (s : ConvStore) (cid cid' : String) (now : Nat)
    (h : cid ≠ cid') : get_user_name (get_or_create_conversation s cid' now).1 cid
      = get_user_name s cid := by
  unfold get_or_create_conversation get_user_name
  cases h' : storeLookup s cid' <;> simp [storeLookup_set_ne _ _ _ _ h]

theorem get_user_name_set_ne (s : ConvStore) (cid cid' nm : String) (now : Nat)
    (h : cid ≠ cid') : get_user_name (set_user_name s cid' nm now) cid = get_user_name s cid := by
  unfold set_user_name get_user_name
  cases h' : storeLookup s cid' <;> simp [storeLookup_set_ne _ _ _ _ h]

/-- Core preservation fact shared by the invariant claims: a `/chat` turn
never changes an already-recorded (non-empty) user name, for any request
and any collaborator behaviour. -/
theorem chat_keeps_name (store : ConvStore) (req : ChatRequest) (now : Nat)
    (g : Except Unit String) (q : Except Unit ChromaQueryResult) (cid n : String)
    (hne : n ≠ "") (h : get_user_name store cid = some n) :
    get_user_name (chat store req now g q).1 cid = some n := by
  obtain ⟨msg, rcid⟩ := req
  cases msg with
  | none => simpa [chat] using h
  | some user_input =>
    cases hemp : (user_input == "") with
    | true => simpa [chat, hemp] using h
    | false =>
      simp only [chat, hemp, Bool.false_eq_true, if_false]
      by_cases hc : rcid.getD ("default") = cid
      · rw [hc]
        have hname : (get_or_create_conversation store cid now).2.user_name = some n := by
          rw [gc_snd_name, h]
        rw [hname]
        have htr : pyTruthyStr (some n) = true := by
          simp [pyTruthyStr, hne]
        rw [htr]
        simpa [get_user_name_gc_self] using h
      · have hc' : cid ≠ rcid.getD ("default") := fun hh => hc hh.symm
        split
        · split
          · simp only []
            rw [get_user_name_set_ne _ _ _ _ _ hc', get_user_name_gc_ne _ _ _ _ hc']
            exact h
          · split
            · simpa [get_user_name_gc_ne _ _ _ _ hc'] using h
            · simpa [get_user_name_gc_ne _ _ _ _ hc'] using h
        · simpa [get_user_name_gc_ne _ _ _ _ hc'] using h

/-- Shared NEED_NAME fact: when the session has no (truthy) recorded name
and the message yields no candidate, the turn answers with the
ask-for-name response — "Hello! May I know your name?" when the message
contains a greeting word, "May I know your name?" otherwise — and leaves
the session's recorded name unchanged. -/
theorem chat_need_name (store : ConvStore) (req : ChatRequest) (now : Nat)
    (g : Except Unit String) (q : Except Unit ChromaQueryResult) (m : String)
    (hm : req.message = some m) (hne : (m == "") = false)
    (hname : pyTruthyStr (get_user_name store (req.conversation_id.getD ("default"))) = false)
    (hex : extract_name_from_message m = none) :
    (chat store req now g q).2 = ChatResult.ok
      { reply := if greetingAny m then ("Hello! May I know your name?") else ("May I know your name?"),
        raw_reply := if greetingAny m then ("Hello! May I know your name?") else ("May I know your name?"),
        relevant_faqs := [], context_used := false,
        name_captured := none, asking_for_name := some true,
        user_name := none, conversation_id := req.conversation_id.getD ("default") }
    ∧ get_user_name (chat store req now g q).1 (req.conversation_id.getD ("default"))
        = get_user_name store (req.conversation_id.getD ("default")) := by
  obtain ⟨msg, rcid⟩ := req
  simp only at hm hname
  subst hm
  have hgc : (get_or_create_conversation store (rcid.getD ("default")) now).2.user_name
      = get_user_name store (rcid.getD ("default")) := gc_snd_name _ _ _
  have hnone : pyTruthyStr none = false := rfl
  cases hg : greetingAny m with
  | true =>
    simp [chat, hne, hgc, hname, hex, hnone, hg, get_user_name_gc_self]
  | false =>
    simp [chat, hne, hgc, hname, hex, hnone, hg, get_user_name_gc_self]

/-- Structure of a successful `retrieve_relevant_faqs` loop: one result
per document, whose scores are `1 - d` for the first distances in
order. -/
theorem buildFaqs_spec : ∀ {ds : List String} {ms : List FAQMeta} {qs : List ℚ}
    {l : List FAQResult}, buildFaqs ds ms qs = some l →
    l.length = ds.length ∧
      l.map FAQResult.relevance_score = (qs.take ds.length).map (fun d => 1 - d) := by
  intro ds
  induction ds with
  | nil =>
    intro ms qs l h
    simp only [buildFaqs, Option.some.injEq] at h
    subst h
    simp
  | cons d ds ih =>
    intro ms qs l h
    cases ms with
    | nil => simp [buildFaqs] at h
    | cons m ms =>
      cases qs with
      | nil => simp [buildFaqs] at h
      | cons q qs =>
        simp only [buildFaqs] at h
        cases hrec : buildFaqs ds ms qs with
        | none => rw [hrec] at h; simp at h
        | some rest =>
          rw [hrec] at h
          simp only [Option.some.injEq] at h
          subst h
          obtain ⟨h1, h2⟩ := ih hrec
          refine ⟨by simp [h1], ?_⟩
          simp [h2]

/-- Every character of a prefix of `s` occurs in `s`, so a predicate true
on all of `s` is true on all of the prefix. -/
theorem prefixOf_all (f : Char → Bool) : ∀ {p s : List Char},
    p.isPrefixOf s = true → s.all f = true → p.all f = true := by
  intro p
  induction p with
  | nil => intro s _ _; rfl
  | cons a as ih =>
    intro s hp hs
    cases s with
    | nil => simp [List.isPrefixOf] at hp
    | cons b bs =>
      simp only [List.isPrefixOf, Bool.and_eq_true, beq_iff_eq] at hp
      simp only [List.all_cons, Bool.and_eq_true] at hs ⊢
      exact ⟨hp.1 ▸ hs.1, ih hp.2 hs.2⟩

/-- An explicit-introduction literal containing a non-word character can
never start a match inside an all-word-character string. -/
theorem tryIntroAt_none (lit : List Char) (pws : Bool) (s : List Char)
    (hl : lit.all isWordChar = false) (hs : s.all isWordChar = true) :
    tryIntroAt lit pws s = none := by
  unfold tryIntroAt
  cases hp : lit.isPrefixOf s with
  | false => simp
  | true =>
    rw [prefixOf_all isWordChar hp hs] at hl
    cases hl

/-- `re.search` with such a literal fails on an all-word-character
string. -/
theorem searchIntro_none (lit : List Char) (pws : Bool)
    (hl : lit.all isWordChar = false) :
    ∀ s : List Char, s.all isWordChar = true → searchIntroPat lit pws s = none := by
  intro s
  induction s with
  | nil =>
    intro hs
    simpa [searchIntroPat] using tryIntroAt_none lit pws [] hl rfl
  | cons c cs ih =>
    intro hs
    simp only [List.all_cons, Bool.and_eq_true] at hs
    simp only [searchIntroPat, tryIntroAt_none lit pws (c :: cs) hl
      (by simp [List.all_cons, hs.1, hs.2])]
    exact ih hs.2

/-- The corresponding explicit-pattern attempt of
`extract_name_from_message` yields nothing. -/
theorem tryExplicit_none (lit : List Char) (pws : Bool) (ml : List Char)
    (hl : lit.all isWordChar = false) (hs : ml.all isWordChar = true) :
    tryExplicit lit pws ml = none := by
  unfold tryExplicit
  rw [searchIntro_none lit pws hl ml hs]

set_option maxRecDepth 8000

/-! ## Claims -/

/-- C1 (counterexample): the hyperlink normalizer is *not* idempotent.
On the input "www.vreg.gov.ng" the second application changes the first
application's output. -/
theorem claim1_counterexample :
    convert_to_hyperlinks (convert_to_hyperlinks ("www.vreg.gov.ng"))
      ≠ convert_to_hyperlinks ("www.vreg.gov.ng") := by decide

/-- C1 (amended): re-running `convert_to_hyperlinks` on already-normalized
output double-wraps the anchored URL: on "www.vreg.gov.ng" the second
pass wraps the anchor's `href` value in a new anchor (producing the
nested `<a href="<a href="`) and also re-wraps the anchor's visible text
(producing nested `...</a></a>`). -/
theorem claim1_idempotence_amended :
    containsSub (convert_to_hyperlinks (convert_to_hyperlinks ("www.vreg.gov.ng"))).data
        "<a href=\"<a href=\"".data = true
    ∧ containsSub (convert_to_hyperlinks (convert_to_hyperlinks ("www.vreg.gov.ng"))).data
        ">www.vreg.gov.ng</a></a>".data = true := by
  constructor <;> decide

/-- C2 (code evaluation): on the spec's own example input the code
produces *no* `mailto:` anchor at all, and the domain portion of the
email address *is* wrapped as a URL anchor (`support@` is immediately
followed by an anchor targeting https://vreg.gov.ng).  The URL pattern
cannot match a span containing `@`, so the `'@' in url` guard never
fires; the URL pass wraps the email's domain, after which the email
pattern cannot match the local part any more. -/
theorem claim2_email_domain_wrapped :
    containsSub (convert_to_hyperlinks ("contact support@vreg.gov.ng or www.vreg.gov.ng")).data
        "mailto:".data = false
    ∧ containsSub (convert_to_hyperlinks ("contact support@vreg.gov.ng or www.vreg.gov.ng")).data
        "support@<a href=\"https://vreg.gov.ng\"".data = true := by
  constructor <;> decide

/-- C3: when the external generator raises, `generate_rag_response`
absorbs the failure and returns the fixed apology record — the apology
text (which contains support@vreg.gov.ng) as `response`, its
hyperlink-normalized form as `response_with_links`, an empty
`relevant_faqs` list, and `context_used = false` — for every query,
user name and index behaviour. -/
theorem claim3_generator_failure_fallback :
    (∀ (user_query : String) (user_name : Option String)
        (queryRes : Except Unit ChromaQueryResult),
      generate_rag_response user_query user_name queryRes (Except.error ()) =
        { response := errorMessage,
          response_with_links := convert_to_hyperlinks errorMessage,
          relevant_faqs := [], context_used := false })
    ∧ containsSub errorMessage.data ("support@vreg.gov.ng".data) = true := by
  refine ⟨fun q nm qr => ?_, by decide⟩
  cases nm <;> rfl

/-- C4: a `/chat` turn never changes a session's recorded user name,
whatever the message: the name-setting path only runs when the stored
name is still null (recorded names are non-empty, see
`claim10_name_never_cleared`). -/
theorem claim4_name_never_overwritten (store : ConvStore) (req : ChatRequest)
    (now : Nat) (g : Except Unit String) (q : Except Unit ChromaQueryResult)
    (cid n : String) (hne : n ≠ "") (h : get_user_name store cid = some n) :
    get_user_name (chat store req now g q).1 cid = some n :=
  chat_keeps_name store req now g q cid n hne h

/-- C4 witness: a concrete session with recorded name "Ada" keeps it even
when the next message ("Femi") is itself a name candidate. -/
theorem claim4_witness :
    get_user_name
      (chat [("default", { user_name := some ("Ada"), created_at := 0, last_activity := 0 })]
        { message := some ("Femi"), conversation_id := none } 5 (Except.error ()) (Except.error ())).1
      ("default") = some ("Ada") :=
  claim4_name_never_overwritten _ _ 5 _ _ ("default") ("Ada") (by decide) rfl

/-- C9: a `/chat` request with no message value is rejected with a 400
error response and a clear message, and the conversation store is left
completely unchanged (no session created or touched). -/
theorem claim9_missing_message (store : ConvStore) (req : ChatRequest) (now : Nat)
    (g : Except Unit String) (q : Except Unit ChromaQueryResult)
    (h : req.message = none) :
    chat store req now g q = (store, ChatResult.clientError 400 ("No message received")) := by
  obtain ⟨msg, rcid⟩ := req
  simp only at h
  subst h
  rfl

/-- C9 witness: concrete store and message-less request. -/
theorem claim9_witness :
    chat [("default", { user_name := some ("Ada"), created_at := 0, last_activity := 0 })]
        { message := none, conversation_id := some ("default") } 7 (Except.error ()) (Except.error ())
      = ([("default", { user_name := some ("Ada"), created_at := 0, last_activity := 0 })],
          ChatResult.clientError 400 ("No message received")) :=
  claim9_missing_message _ _ 7 _ _ rfl

/-- C8: in the NEED_NAME state, when the message yields no name
candidate, the reply is exactly "Hello! May I know your name?" when the
message matches the greeting-word set (the handler's substring test
against `greeting_words`), and exactly "May I know your name?" for every
other message. -/
theorem claim8_ask_for_name (store : ConvStore) (req : ChatRequest) (now : Nat)
    (g : Except Unit String) (q : Except Unit ChromaQueryResult) (m : String)
    (hm : req.message = some m) (hne : m ≠ "")
    (hname : pyTruthyStr (get_user_name store (req.conversation_id.getD ("default"))) = false)
    (hex : extract_name_from_message m = none) :
    (chat store req now g q).2 = ChatResult.ok
      { reply := if greetingAny m then ("Hello! May I know your name?") else ("May I know your name?"),
        raw_reply := if greetingAny m then ("Hello! May I know your name?") else ("May I know your name?"),
        relevant_faqs := [], context_used := false,
        name_captured := none, asking_for_name := some true,
        user_name := none, conversation_id := req.conversation_id.getD ("default") } :=
  (chat_need_name store req now g q m hm (beq_eq_false_iff_ne.mpr hne) hname hex).1

/-- C8 witness: a fresh session greeted with "hi there" gets the greeting
variant of the ask-for-name reply. -/
theorem claim8_witness :
    (chat [] { message := some ("hi there"), conversation_id := none } 0
        (Except.error ()) (Except.error ())).2 = ChatResult.ok
      { reply := if greetingAny ("hi there") then ("Hello! May I know your name?") else ("May I know your name?"),
        raw_reply := if greetingAny ("hi there") then ("Hello! May I know your name?") else ("May I know your name?"),
        relevant_faqs := [], context_used := false,
        name_captured := none, asking_for_name := some true,
        user_name := none,
        conversation_id := (({ message := some ("hi there"), conversation_id := none } : ChatRequest).conversation_id.getD ("default")) } :=
  claim8_ask_for_name [] _ 0 _ _ ("hi there") rfl (by decide) (by decide) (by decide)

/-- C5: a session that has only ever received messages from which the
extractor yields no candidate answers every turn with
`asking_for_name = true`, empty `relevant_faqs` and
`context_used = false`, and its recorded name stays null. -/
theorem claim5_no_name_sessions (cid : String) (store : ConvStore)
    (turns : List (ChatRequest × Nat × Except Unit String × Except Unit ChromaQueryResult))
    (hinit : get_user_name store cid = none)
    (hturns : ∀ t ∈ turns, t.1.conversation_id.getD ("default") = cid ∧
       ∃ m, t.1.message = some m ∧ m ≠ "" ∧ extract_name_from_message m = none) :
    (∀ r ∈ (runChats store turns).2, ∃ resp, r = ChatResult.ok resp ∧
        resp.asking_for_name = some true ∧ resp.relevant_faqs = [] ∧ resp.context_used = false)
    ∧ get_user_name (runChats store turns).1 cid = none := by
  induction turns generalizing store with
  | nil => exact ⟨by simp [runChats], by simpa [runChats] using hinit⟩
  | cons t ts ih =>
    obtain ⟨req, now, g, q⟩ := t
    obtain ⟨hcid, m, hm, hne, hex⟩ := hturns _ (List.mem_cons_self _ _)
    have hstep := chat_need_name store req now g q m hm (beq_eq_false_iff_ne.mpr hne)
      (by rw [hcid, hinit]; rfl) hex
    rw [hcid] at hstep
    have hinit' : get_user_name (chat store req now g q).1 cid = none := by
      rw [hstep.2, hinit]
    have ihr := ih (chat store req now g q).1 hinit'
      (fun t ht => hturns t (List.mem_cons_of_mem _ ht))
    constructor
    · intro r hr
      simp only [runChats] at hr
      rcases List.mem_cons.mp hr with h | h
      · exact ⟨_, h ▸ hstep.1, rfl, rfl, rfl⟩
      · exact ihr.1 r h
    · simpa only [runChats] using ihr.2

/-- C5 witness: two candidate-free turns ("Hello", then "what is vreg")
on a fresh default session. -/
theorem claim5_witness :
    (∀ r ∈ (runChats []
        [({ message := some ("Hello"), conversation_id := none }, 0, Except.error (), Except.error ()),
         ({ message := some ("what is vreg"), conversation_id := none }, 1, Except.error (), Except.error ())]).2,
      ∃ resp, r = ChatResult.ok resp ∧
        resp.asking_for_name = some true ∧ resp.relevant_faqs = [] ∧ resp.context_used = false)
    ∧ get_user_name (runChats []
        [({ message := some ("Hello"), conversation_id := none }, 0, Except.error (), Except.error ()),
         ({ message := some ("what is vreg"), conversation_id := none }, 1, Except.error (), Except.error ())]).1
        "default" = none := by
  refine claim5_no_name_sessions ("default") [] _ rfl ?_
  intro t ht
  rcases List.mem_cons.mp ht with h | h
  · subst h
    exact ⟨rfl, "Hello", rfl, by decide, by decide⟩
  · rcases List.mem_cons.mp h with h' | h'
    · subst h'
      exact ⟨rfl, "what is vreg", rfl, by decide, by decide⟩
    · cases h'

/-- C6: under the index's contract (at most `n_results` rows, distances
in non-decreasing order), `retrieve_relevant_faqs` returns at most
`n_results` entries, sorted non-increasingly by `relevance_score`, every
score being `1 - d` for one of the returned distances `d`; and a raised
index error yields the empty list instead of propagating. -/
theorem claim6_retrieve_contract (query : String) (n_results : Nat)
    (qr : Except Unit ChromaQueryResult)
    (hlen : ∀ res, qr = Except.ok res → res.documents.length ≤ n_results)
    (hsort : ∀ res, qr = Except.ok res → res.distances.Pairwise (fun a b => a ≤ b)) :
    (retrieve_relevant_faqs query n_results qr).length ≤ n_results
    ∧ ((retrieve_relevant_faqs query n_results qr).map FAQResult.relevance_score).Pairwise
        (fun a b => b ≤ a)
    ∧ (∀ res f, qr = Except.ok res → f ∈ retrieve_relevant_faqs query n_results qr →
        ∃ d ∈ res.distances, f.relevance_score = 1 - d)
    ∧ retrieve_relevant_faqs query n_results (Except.error ()) = [] := by
  cases qr with
  | error e =>
    refine ⟨by simp [retrieve_relevant_faqs], by simp [retrieve_relevant_faqs], ?_, rfl⟩
    intro res f h
    simp at h
  | ok res =>
    have hretr : retrieve_relevant_faqs query n_results (Except.ok res) =
        match buildFaqs res.documents res.metadatas res.distances with
        | none => []
        | some relevant_faqs => relevant_faqs := rfl
    cases hb : buildFaqs res.documents res.metadatas res.distances with
    | none =>
      rw [hretr, hb]
      refine ⟨by simp, by simp, ?_, rfl⟩
      intro res' f _ hf
      simp at hf
    | some l =>
      rw [hretr, hb]
      obtain ⟨hlen', hsc⟩ := buildFaqs_spec hb
      have hsortl : (l.map FAQResult.relevance_score).Pairwise (fun a b => b ≤ a) := by
        rw [hsc]
        have htake : (res.distances.take res.documents.length).Pairwise (fun a b => a ≤ b) :=
          List.Pairwise.sublist (List.take_sublist _ _) (hsort res rfl)
        exact (List.pairwise_map).mpr (htake.imp (fun hab => by linarith))
      refine ⟨hlen' ▸ hlen res rfl, hsortl, ?_, rfl⟩
      intro res' f hres hf
      cases hres
      have hmem : f.relevance_score ∈ l.map FAQResult.relevance_score :=
        List.mem_map_of_mem _ hf
      rw [hsc] at hmem
      obtain ⟨d, hd, hdeq⟩ := List.mem_map.mp hmem
      exact ⟨d, List.take_subset _ _ hd, hdeq.symm⟩

/-- C6 witness: a two-row index reply with distances 0 ≤ 1, queried with
limit 3. -/
theorem claim6_witness :
    (retrieve_relevant_faqs ("x") 3 (Except.ok
        { documents := ["d1", "d2"],
          metadatas := [{ question := "q1", answer := "a1", category := "general" },
                        { question := "q2", answer := "a2", category := "general" }],
          distances := [0, 1] })).length ≤ 3
    ∧ ((retrieve_relevant_faqs ("x") 3 (Except.ok
        { documents := ["d1", "d2"],
          metadatas := [{ question := "q1", answer := "a1", category := "general" },
                        { question := "q2", answer := "a2", category := "general" }],
          distances := [0, 1] })).map FAQResult.relevance_score).Pairwise (fun a b => b ≤ a)
    ∧ (∀ res f, (Except.ok
        { documents := ["d1", "d2"],
          metadatas := [{ question := "q1", answer := "a1", category := "general" },
                        { question := "q2", answer := "a2", category := "general" }],
          distances := [0, 1] } : Except Unit ChromaQueryResult) = Except.ok res →
        f ∈ retrieve_relevant_faqs ("x") 3 (Except.ok
        { documents := ["d1", "d2"],
          metadatas := [{ question := "q1", answer := "a1", category := "general" },
                        { question := "q2", answer := "a2", category := "general" }],
          distances := [0, 1] }) →
        ∃ d ∈ res.distances, f.relevance_score = 1 - d)
    ∧ retrieve_relevant_faqs ("x") 3 (Except.error ()) = [] :=
  claim6_retrieve_contract ("x") 3 _
    (fun res h => by cases h; decide)
    (fun res h => by cases h; simp)

/-- When the stripped lower-cased message consists of word characters
only, none of the seven explicit-introduction patterns can match (each
literal contains a space, an apostrophe, or a colon), so extraction
reduces to the single-word pattern. -/
theorem extract_eq_single (m : String)
    (hword : (pyStrip (pyLower m.data)).all isWordChar = true) :
    extract_name_from_message m = trySingle m (pyStrip (pyLower m.data)) := by
  simp only [extract_name_from_message]
  rw [tryExplicit_none ("my name is".data) true _ (by decide) hword,
      tryExplicit_none litIm true _ (by decide) hword,
      tryExplicit_none ("i am".data) true _ (by decide) hword,
      tryExplicit_none ("call me".data) true _ (by decide) hword,
      tryExplicit_none litIts true _ (by decide) hword,
      tryExplicit_none ("this is".data) true _ (by decide) hword,
      tryExplicit_none ("name:".data) false _ (by decide) hword]

/-- C7: the spec's extraction examples hold, and for a bare single-word
message (stripped lower-cased message all word characters) a name is
returned only if the captured token has length at least 2 and is not in
the stop-list, and the stripped original message starts with an
upper-case letter and is entirely alphabetic. -/
theorem claim7_name_extraction :
    extract_name_from_message ("my name is Chidi") = some ("Chidi")
    ∧ extract_name_from_message ("Hello") = none
    ∧ extract_name_from_message ("ok") = none
    ∧ extract_name_from_message ("Femi") = some ("Femi")
    ∧ extract_name_from_message ("femi") = none
    ∧ ∀ (m n : String), (pyStrip (pyLower m.data)).all isWordChar = true →
        extract_name_from_message m = some n →
        (2 ≤ (pyStrip (pyLower m.data)).length
         ∧ non_names.contains (String.mk (pyLower (pyStrip (pyLower m.data)))) = false
         ∧ headIsUpper (pyStrip m.data) = true
         ∧ pyIsAlphaB (pyStrip m.data) = true) := by
  refine ⟨by decide, by decide, by decide, by decide, by decide, ?_⟩
  intro m n hword hex
  rw [extract_eq_single m hword] at hex
  unfold trySingle fullWordMatch at hex
  split at hex
  · cases hex
  · rename_i w hw
    have hwml : w = pyStrip (pyLower m.data) := by
      by_cases hc :
          ((!(pyStrip (pyLower m.data)).isEmpty && (pyStrip (pyLower m.data)).all isWordChar) = true)
      · rw [if_pos hc] at hw
        exact (Option.some.inj hw).symm
      · rw [if_neg hc] at hw
        cases hw
    by_cases hguard :
        ((decide (2 ≤ w.length) && !non_names.contains (String.mk (pyLower w)) &&
          headIsUpper (pyStrip m.data) && pyIsAlphaB (pyStrip m.data)) = true)
    · rw [hwml] at hguard
      simp only [Bool.and_eq_true, decide_eq_true_eq, Bool.not_eq_true'] at hguard
      exact ⟨hguard.1.1.1, hguard.1.1.2, hguard.1.2, hguard.2⟩
    · rw [if_neg hguard] at hex
      cases hex

/-- `str.capitalize` of a token of length at least 2 is a non-empty
string. -/
theorem capitalize_ne_empty {w : List Char} (hw : 2 ≤ w.length) :
    String.mk (pyCapitalize w) ≠ "" := by
  cases w with
  | nil => simp at hw
  | cons c cs =>
    intro h
    have h2 := congrArg String.data h
    simp [pyCapitalize] at h2

/-- An explicit-pattern attempt only ever returns a non-empty name. -/
theorem tryExplicit_some_ne_empty {lit : List Char} {pws : Bool} {ml : List Char}
    {r : String} (h : tryExplicit lit pws ml = some r) : r ≠ "" := by
  unfold tryExplicit at h
  split at h
  · cases h
  · rename_i w hs
    split at h
    · rename_i hg
      have hw : 2 ≤ w.length := by
        simp only [Bool.and_eq_true, decide_eq_true_eq] at hg
        exact hg.1
      exact (Option.some.inj h) ▸ capitalize_ne_empty hw
    · cases h

/-- The single-word attempt only ever returns a non-empty name. -/
theorem trySingle_some_ne_empty {m : String} {ml : List Char} {r : String}
    (h : trySingle m ml = some r) : r ≠ "" := by
  unfold trySingle at h
  split at h
  · cases h
  · rename_i w hs
    split at h
    · rename_i hg
      have hw : 2 ≤ w.length := by
        simp only [Bool.and_eq_true, decide_eq_true_eq] at hg
        exact hg.1.1.1
      exact (Option.some.inj h) ▸ capitalize_ne_empty hw
    · cases h

/-- Every name the extractor records is non-empty (it has length at
least 2 before capitalization). -/
theorem extract_some_ne_empty {m r : String}
    (h : extract_name_from_message m = some r) : r ≠ "" := by
  simp only [extract_name_from_message] at h
  cases h1 : tryExplicit ("my name is".data) true (pyStrip (pyLower m.data)) with
  | some x => rw [h1] at h; exact (Option.some.inj h) ▸ tryExplicit_some_ne_empty h1
  | none =>
  rw [h1] at h
  cases h2 : tryExplicit litIm true (pyStrip (pyLower m.data)) with
  | some x => rw [h2] at h; exact (Option.some.inj h) ▸ tryExplicit_some_ne_empty h2
  | none =>
  rw [h2] at h
  cases h3 : tryExplicit ("i am".data) true (pyStrip (pyLower m.data)) with
  | some x => rw [h3] at h; exact (Option.some.inj h) ▸ tryExplicit_some_ne_empty h3
  | none =>
  rw [h3] at h
  cases h4 : tryExplicit ("call me".data) true (pyStrip (pyLower m.data)) with
  | some x => rw [h4] at h; exact (Option.some.inj h) ▸ tryExplicit_some_ne_empty h4
  | none =>
  rw [h4] at h
  cases h5 : tryExplicit litIts true (pyStrip (pyLower m.data)) with
  | some x => rw [h5] at h; exact (Option.some.inj h) ▸ tryExplicit_some_ne_empty h5
  | none =>
  rw [h5] at h
  cases h6 : tryExplicit ("this is".data) true (pyStrip (pyLower m.data)) with
  | some x => rw [h6] at h; exact (Option.some.inj h) ▸ tryExplicit_some_ne_empty h6
  | none =>
  rw [h6] at h
  cases h7 : tryExplicit ("name:".data) false (pyStrip (pyLower m.data)) with
  | some x => rw [h7] at h; exact (Option.some.inj h) ▸ tryExplicit_some_ne_empty h7
  | none =>
  rw [h7] at h
  exact trySingle_some_ne_empty h

/-- C10: once a session's user name is recorded (recorded names are
always non-empty, third conjunct) no operation of the running program
can clear or change it; in particular the only would-be reset path,
`/reset-session`, always raises (undefined `session`) without touching
the store. -/
theorem claim10_name_never_cleared :
    (∀ store : ConvStore, reset_session store = (store, HandlerOutcome.raised))
    ∧ (∀ (store : ConvStore) (op : Op) (cid n : String), n ≠ "" →
        get_user_name store cid = some n → get_user_name (appStep store op) cid = some n)
    ∧ (∀ (m r : String), extract_name_from_message m = some r → r ≠ "") := by
  refine ⟨fun store => rfl, ?_, fun m r h => extract_some_ne_empty h⟩
  intro store op cid n hne h
  cases op with
  | chatOp req now g q => exact chat_keeps_name store req now g q cid n hne h
  | resetSessionOp => exact h
  | getSessionOp => exact h
  | searchOp query qres => exact h
  | healthOp => exact h
  | processTextOp t => exact h

/-- C10 witness: the reset handler raises and leaves a concrete store
untouched, and a chat turn whose message is itself an explicit name
introduction still cannot change the recorded name "Ada". -/
theorem claim10_witness :
    reset_session [("default", { user_name := some ("Ada"), created_at := 0, last_activity := 0 })]
      = ([("default", { user_name := some ("Ada"), created_at := 0, last_activity := 0 })],
          HandlerOutcome.raised)
    ∧ get_user_name (appStep
        [("default", { user_name := some ("Ada"), created_at := 0, last_activity := 0 })]
        (Op.chatOp { message := some ("my name is Tunde"), conversation_id := none } 3
          (Except.error ()) (Except.error ()))) ("default") = some ("Ada") :=
  ⟨claim10_name_never_cleared.1 _,
   claim10_name_never_cleared.2.1 _ _ ("default") ("Ada") (by decide) rfl⟩

/-- C7 witness: the bare-word conditions instantiated at the accepted
message "Femi". -/
theorem claim7_witness :
    2 ≤ (pyStrip (pyLower ("Femi".data))).length
    ∧ non_names.contains (String.mk (pyLower (pyStrip (pyLower ("Femi".data))))) = false
    ∧ headIsUpper (pyStrip ("Femi".data)) = true
    ∧ pyIsAlphaB (pyStrip ("Femi".data)) = true :=
  claim7_name_extraction.2.2.2.2.2 ("Femi") ("Femi") (by decide) (by decide)
